import Mathlib

/-!
Verification of the M24SR NFC driver block-protocol engine (m24sr_driver.cpp):
the CRC16 engine, the response validator, the I-block frame codec, the
frame-waiting-time extension sub-protocol and the per-command session paths.
Machine integers are modelled as Nat with explicit reduction modulo 2^8 and
2^16 where the C code truncates. Byte buffers are lists of Nat.
-/

namespace M24SR

/-- The chip's maximum single-operation size (MAX_OPERATION_SIZE). -/
def MAX_OPERATION_SIZE : Nat := 246

/-- The status word the NFC chip returns on success (NFC_COMMAND_SUCCESS). -/
def NFC_COMMAND_SUCCESS : Nat := 0x9000

/-- Modelled from the spec: the numeric values of the M24srError_t enumeration
are declared in the driver header, which is not among the source files here.
The spec requires the driver-level success to be a result distinct from any
raw chip status that is merely passed through, so it is modelled as a value
above the 16-bit status-word range. -/
def M24SR_SUCCESS : Nat := 0x10000

/-- Modelled from the spec: numeric value of the transport (bus timeout) error
of M24srError_t, declared in the missing driver header; the spec requires a
transport error to be distinct from every chip-reported status, so it is
modelled above the 16-bit status-word range. -/
def M24SR_IO_ERROR_I2CTIMEOUT : Nat := 0x10011

/-- Modelled from the spec: numeric value of the link-integrity (CRC) error of
M24srError_t, declared in the missing driver header; the spec requires the CRC
error never to be reinterpreted as an application status, so it is modelled
above the 16-bit status-word range. -/
def M24SR_IO_ERROR_CRC : Nat := 0x10012

/-- Modelled from the spec: numeric value of the invalid-parameter error of
M24srError_t, declared in the missing driver header, modelled above the
16-bit status-word range like the other driver-level results. -/
def M24SR_IO_ERROR_PARAMETER : Nat := 0x10014

/-- The GETLSB macro: low byte of a 16-bit value, val & 0x00FF. -/
def GETLSB (val : Nat) : Nat := val &&& 0x00FF

/-- The GETMSB macro: high byte of a 16-bit value, (val & 0xFF00) >> 8. -/
def GETMSB (val : Nat) : Nat := (val &&& 0xFF00) >>> 8

/-- One step of the CRC16 ITU-V.41 accumulator update (update_crc in the
source). The first argument is the incoming byte (a uint8 variable), the
second the current 16-bit accumulator; the uint8 and uint16 assignments of
the C code are modelled by reduction modulo 256 and 65536. -/
def update_crc (ch crc : Nat) : Nat :=
  let ch1 := (ch ^^^ (crc &&& 0x00FF)) % 256
  let ch2 := (ch1 ^^^ (ch1 <<< 4)) % 256
  ((crc >>> 8) ^^^ (ch2 <<< 8) ^^^ (ch2 <<< 3) ^^^ (ch2 >>> 4)) % 65536

/-- The CRC16 of a byte span (compute_crc in the source): the accumulator is
initialised to 0x6363 and each byte is folded through update_crc. The C loop
is do-while over `length` bytes, so the source is only ever invoked with a
span of at least one byte; the fold over the byte list models exactly that
span. -/
def compute_crc (data : List Nat) : Nat :=
  data.foldl (fun crc ch => update_crc ch crc) 0x6363

/-- The status word assembled from two received bytes, as the source writes it:
((hi << 8) & 0xFF00) | (lo & 0x00FF). -/
def status_word (hi lo : Nat) : Nat := ((hi <<< 8) &&& 0xFF00) ||| (lo &&& 0x00FF)

/-- The mapping applied to the raw chip status at the end of
is_correct_crc_residue: 0x9000 becomes the driver success code, anything else
is passed through. -/
def map_status (sw : Nat) : Nat := if sw = NFC_COMMAND_SUCCESS then M24SR_SUCCESS else sw

/-- The response validator (is_correct_crc_residue in the source). `data` is
the received buffer, `length` the span length handed in by the caller. The
residue over the first `length` bytes is computed (left 0 when length is 0);
a zero residue yields the status word taken at offsets length - 4
(UB_STATUS_OFFSET) and length - 3 (LB_STATUS_OFFSET); otherwise the residue
over the first 5 bytes decides between the CRC error and the status word at
offsets 1 and 2. -/
def is_correct_crc_residue (data : List Nat) (length : Nat) : Nat :=
  let res_crc := if length ≠ 0 then compute_crc (data.take length) else 0
  if res_crc = 0 then
    map_status (status_word (data.getD (length - 4) 0) (data.getD (length - 3) 0))
  else if compute_crc (data.take 5) ≠ 0 then
    M24SR_IO_ERROR_CRC
  else
    map_status (status_word (data.getD 1 0) (data.getD 2 0))

lemma status_word_lt (hi lo : Nat) : status_word hi lo < 65536 := by
  have h1 : (hi <<< 8) &&& 0xFF00 < 2 ^ 16 :=
    lt_of_le_of_lt Nat.and_le_right (by norm_num)
  have h2 : lo &&& 0x00FF < 2 ^ 16 :=
    lt_of_le_of_lt Nat.and_le_right (by norm_num)
  have h := Nat.or_lt_two_pow h1 h2
  simpa [status_word] using h

lemma map_status_ne_crc (hi lo : Nat) :
    map_status (status_word hi lo) ≠ M24SR_IO_ERROR_CRC := by
  have h := status_word_lt hi lo
  unfold map_status M24SR_SUCCESS M24SR_IO_ERROR_CRC
  split
  · omega
  · omega

/-- C1: the response validator first computes the residue over the full span;
a zero residue yields the status word taken from the two bytes immediately
before the CRC (offsets length - 4 and length - 3), with 0x9000 mapped to the
success code; a non-zero residue triggers a second residue computation over
the first 5 bytes only, yielding the status word from bytes 1 and 2 of that
window when zero; and the validator fails with the CRC error exactly when
both residues are non-zero. -/
theorem response_validator_two_window (data : List Nat) (length : Nat)
    (h : length ≠ 0) :
    (is_correct_crc_residue data length = M24SR_IO_ERROR_CRC ↔
      (compute_crc (data.take length) ≠ 0 ∧ compute_crc (data.take 5) ≠ 0)) ∧
    (compute_crc (data.take length) = 0 →
      is_correct_crc_residue data length =
        map_status (status_word (data.getD (length - 4) 0) (data.getD (length - 3) 0))) ∧
    (compute_crc (data.take length) ≠ 0 → compute_crc (data.take 5) = 0 →
      is_correct_crc_residue data length =
        map_status (status_word (data.getD 1 0) (data.getD 2 0))) ∧
    map_status NFC_COMMAND_SUCCESS = M24SR_SUCCESS := by
  unfold is_correct_crc_residue
  rw [if_pos h]
  by_cases h1 : compute_crc (data.take length) = 0
  · rw [if_pos h1]
    refine ⟨?_, fun _ => rfl, fun hn _ => absurd h1 hn, by simp [map_status]⟩
    constructor
    · intro hc
      exact absurd hc (map_status_ne_crc _ _)
    · rintro ⟨hn, _⟩
      exact absurd h1 hn
  · rw [if_neg h1]
    by_cases h5 : compute_crc (data.take 5) = 0
    · rw [if_neg (by simpa using h5)]
      refine ⟨?_, fun he => absurd he h1, fun _ _ => rfl, by simp [map_status]⟩
      constructor
      · intro hc
        exact absurd hc (map_status_ne_crc _ _)
      · rintro ⟨_, hn⟩
        exact absurd h5 hn
    · rw [if_pos (by simpa using h5)]
      exact ⟨⟨fun _ => ⟨h1, h5⟩, fun _ => rfl⟩, fun he => absurd he h1,
        fun _ h0 => absurd h0 h5, by simp [map_status]⟩

/-- A concrete run of the C1 theorem: a five-byte status response whose
trailing CRC is correct and whose status word is 0x9000 validates to the
success code. -/
theorem response_validator_two_window_witness :
    is_correct_crc_residue
        ([0x02, 0x90, 0x00] ++
          [GETLSB (compute_crc [0x02, 0x90, 0x00]), GETMSB (compute_crc [0x02, 0x90, 0x00])]) 5 =
      map_status (status_word 0x90 0x00) :=
  (response_validator_two_window
      ([0x02, 0x90, 0x00] ++
        [GETLSB (compute_crc [0x02, 0x90, 0x00]), GETMSB (compute_crc [0x02, 0x90, 0x00])]) 5
      (by decide)).2.1 (by decide)

lemma update_crc_lt (ch crc : Nat) : update_crc ch crc < 65536 := by
  unfold update_crc
  exact Nat.mod_lt _ (by norm_num)

lemma compute_crc_lt (data : List Nat) : compute_crc data < 65536 := by
  unfold compute_crc
  generalize h0 : (0x6363 : Nat) = init
  have hinit : init < 65536 := by omega
  clear h0
  induction data generalizing init with
  | nil => simpa using hinit
  | cons b l ih =>
    simpa using ih (update_crc b init) (update_crc_lt b init)

lemma and_ff00_shiftRight (c : Nat) : (c &&& 0xFF00) >>> 8 = (c >>> 8) &&& 0xFF := by
  apply Nat.eq_of_testBit_eq
  intro i
  rw [Nat.testBit_shiftRight, Nat.testBit_land, Nat.testBit_land, Nat.testBit_shiftRight]
  congr 1
  rw [show (0xFF00 : Nat) = 0xFF <<< 8 from rfl, Nat.testBit_shiftLeft]
  simp

lemma update_crc_lsb (c : Nat) : update_crc (GETLSB c) c = (c >>> 8) % 65536 := by
  unfold update_crc GETLSB
  simp [Nat.xor_self, Nat.zero_shiftLeft, Nat.zero_shiftRight, Nat.xor_zero]

lemma update_crc_msb (c : Nat) (h : c < 65536) : update_crc (GETMSB c) (c >>> 8) = 0 := by
  unfold update_crc GETMSB
  rw [and_ff00_shiftRight]
  simp only [Nat.xor_self, Nat.zero_mod, Nat.zero_xor, Nat.zero_shiftLeft,
    Nat.zero_shiftRight, Nat.xor_zero]
  have h16 : c >>> 8 >>> 8 = 0 := by
    rw [Nat.shiftRight_eq_div_pow, Nat.shiftRight_eq_div_pow, Nat.div_div_eq_div_mul]
    exact Nat.div_eq_of_lt (by norm_num at h ⊢; omega)
  simp [h16]

/-- C3: appending the CRC16 of a byte span, low byte first, makes the residue
over the extended span zero: compute_crc (b ++ crc_bytes b) = 0. -/
theorem crc_append_makes_residue_zero (b : List Nat) (_h : b ≠ []) :
    compute_crc (b ++ [GETLSB (compute_crc b), GETMSB (compute_crc b)]) = 0 := by
  have hb : compute_crc b < 65536 := compute_crc_lt b
  unfold compute_crc
  rw [List.foldl_append]
  show update_crc (GETMSB (compute_crc b)) (update_crc (GETLSB (compute_crc b)) (compute_crc b)) = 0
  rw [update_crc_lsb]
  have hsr : compute_crc b >>> 8 % 65536 = compute_crc b >>> 8 := by
    apply Nat.mod_eq_of_lt
    rw [Nat.shiftRight_eq_div_pow]
    exact lt_of_le_of_lt (Nat.div_le_self _ _) hb
  rw [hsr]
  exact update_crc_msb (compute_crc b) hb

/-- A concrete run of the C3 theorem on the span [1, 2, 3]. -/
theorem crc_append_makes_residue_zero_witness :
    compute_crc
        ([1, 2, 3] ++ [GETLSB (compute_crc [1, 2, 3]), GETMSB (compute_crc [1, 2, 3])]) = 0 :=
  crc_append_makes_residue_zero [1, 2, 3] (by decide)

/-! ## Frame codec -/

/-- Command-structure mask bit: PCB byte present (PCB_NEEDED). -/
def PCB_NEEDED : Nat := 0x0001

/-- Command-structure mask bit: CLA byte present (CLA_NEEDED). -/
def CLA_NEEDED : Nat := 0x0002

/-- Command-structure mask bit: instruction byte present (INS_NEEDED). -/
def INS_NEEDED : Nat := 0x0004

/-- Command-structure mask bit: P1 byte present (P1_NEEDED). -/
def P1_NEEDED : Nat := 0x0008

/-- Command-structure mask bit: P2 byte present (P2_NEEDED). -/
def P2_NEEDED : Nat := 0x0010

/-- Command-structure mask bit: data-length byte present (LC_NEEDED). -/
def LC_NEEDED : Nat := 0x0020

/-- Command-structure mask bit: data field present (DATA_NEEDED). -/
def DATA_NEEDED : Nat := 0x0040

/-- Command-structure mask bit: expected-length byte present (LE_NEEDED). -/
def LE_NEEDED : Nat := 0x0080

/-- Command-structure mask bit: the two CRC bytes present (CRC_NEEDED). -/
def CRC_NEEDED : Nat := 0x0100

/-- The DID flag (DID_NEEDED, 0x08) that the source tests against
block_number rather than against command_mask. -/
def DID_NEEDED : Nat := 0x08

/-- The read-binary command mask (CMD_MASK_READBINARY). -/
def CMD_MASK_READBINARY : Nat := 0x019F

/-- The update-binary command mask (CMD_MASK_UPDATEBINARY). -/
def CMD_MASK_UPDATEBINARY : Nat := 0x017F

/-- The select-NDEF-file command mask (CMD_MASK_SELECTNDEFFILE). -/
def CMD_MASK_SELECTNDEFFILE : Nat := 0x017F

/-- The select-application command mask (CMD_MASK_SELECTAPPLICATION). -/
def CMD_MASK_SELECTAPPLICATION : Nat := 0x01FF

/-- The C_APDU command header: class, instruction and parameter bytes. -/
structure C_APDU_Header where
  CLA : Nat
  INS : Nat
  P1 : Nat
  P2 : Nat
deriving DecidableEq

/-- The C_APDU command body: data length, optional data pointer (none models a
NULL pointer) and expected response length. -/
structure C_APDU_Body where
  LC : Nat
  data : Option (List Nat)
  LE : Nat
deriving DecidableEq

/-- The C_APDU command structure. -/
structure C_APDU where
  header : C_APDU_Header
  body : C_APDU_Body
deriving DecidableEq

/-- The data field the codec emits: a memcpy of LC bytes from the payload when
a payload pointer is present, a memset of LC zero bytes otherwise. Every call
site of the source passes a payload of at least LC bytes; bytes a shorter
payload would leave unspecified are modelled as zeros. -/
def data_field (body : C_APDU_Body) : List Nat :=
  match body.data with
  | some d => d.take body.LC ++ List.replicate (body.LC - d.length) 0
  | none => List.replicate body.LC 0

/-- The frame codec (build_I_block_command in the source). Arguments are the
command mask, the command, the device-id byte and the current block number
(the C static variable, toggled with the ! operator when the PCB field is
selected); the result is the emitted frame together with the new block
number. The device-id guard reproduces the source exactly: it tests
block_number & DID_NEEDED, not command_mask. The length handed to
compute_crc is cast to uint8 in the source, modelled by the modulo 256 on
the prefix length. -/
def build_I_block_command (command_mask : Nat) (command : C_APDU)
    (did block_number : Nat) : List Nat × Nat :=
  let bn := if command_mask &&& PCB_NEEDED ≠ 0 then (if block_number = 0 then 1 else 0)
            else block_number
  let pre :=
    (if command_mask &&& PCB_NEEDED ≠ 0 then [0x02 ||| bn] else [])
    ++ (if bn &&& DID_NEEDED ≠ 0 then [did] else [])
    ++ (if command_mask &&& CLA_NEEDED ≠ 0 then [command.header.CLA] else [])
    ++ (if command_mask &&& INS_NEEDED ≠ 0 then [command.header.INS] else [])
    ++ (if command_mask &&& P1_NEEDED ≠ 0 then [command.header.P1] else [])
    ++ (if command_mask &&& P2_NEEDED ≠ 0 then [command.header.P2] else [])
    ++ (if command_mask &&& LC_NEEDED ≠ 0 then [command.body.LC] else [])
    ++ (if command_mask &&& DATA_NEEDED ≠ 0 then data_field command.body else [])
    ++ (if command_mask &&& LE_NEEDED ≠ 0 then [command.body.LE] else [])
  if command_mask &&& CRC_NEEDED ≠ 0 then
    let crc16 := compute_crc (pre.take (pre.length % 256))
    (pre ++ [GETLSB crc16, GETMSB crc16], bn)
  else (pre, bn)

lemma build_snd_of_pcb (command_mask : Nat) (command : C_APDU) (did bn : Nat)
    (h : command_mask &&& PCB_NEEDED ≠ 0) :
    (build_I_block_command command_mask command did bn).2 =
      (if bn = 0 then 1 else 0) := by
  unfold build_I_block_command
  simp only [h, if_true, ne_eq, not_false_eq_true, if_pos]
  split <;> rfl

lemma build_head_of_pcb (command_mask : Nat) (command : C_APDU) (did bn : Nat)
    (h : command_mask &&& PCB_NEEDED ≠ 0) :
    (build_I_block_command command_mask command did bn).1.getD 0 0 =
      0x02 ||| (if bn = 0 then 1 else 0) := by
  unfold build_I_block_command
  simp only [h, if_true, ne_eq, not_false_eq_true, if_pos, List.singleton_append,
    List.cons_append]
  split <;> simp

/-- A concrete command used by the codec theorems below: the read-binary
command header with a 16-byte expected length, as read_binary builds it. -/
def test_apdu : C_APDU :=
  { header := { CLA := 0x00, INS := 0xB0, P1 := 0x00, P2 := 0x00 },
    body := { LC := 0, data := none, LE := 0x10 } }

/-- C2 (code bug): the source guards the device-id byte with
block_number & DID_NEEDED instead of command_mask & DID_NEEDED, and the block
number is only ever 0 or 1, so the device-id byte is never emitted even
though the mask selects the DID bit: the read-binary frame built with device
id 0xAA contains no 0xAA byte, and the emitted frame does not depend on the
device id at all. -/
theorem did_byte_never_emitted :
    CMD_MASK_READBINARY &&& DID_NEEDED = 0x08 ∧
    ((build_I_block_command CMD_MASK_READBINARY test_apdu 0xAA 0).1.contains 0xAA) = false ∧
    ((build_I_block_command CMD_MASK_READBINARY test_apdu 0xAA 1).1.contains 0xAA) = false ∧
    (build_I_block_command CMD_MASK_READBINARY test_apdu 0xAA 0).1 =
      (build_I_block_command CMD_MASK_READBINARY test_apdu 0x00 0).1 := by
  decide

/-- C7: two consecutive information-block encodes with the PCB field selected
produce header bytes whose sequence bit (bit 0) differs, whatever the two
command kinds are: the block number is threaded from the first encode into
the second. -/
theorem sequence_bit_alternates (mask1 mask2 : Nat) (cmd1 cmd2 : C_APDU)
    (did1 did2 bn : Nat) (h1 : mask1 &&& PCB_NEEDED ≠ 0)
    (h2 : mask2 &&& PCB_NEEDED ≠ 0) :
    ((build_I_block_command mask1 cmd1 did1 bn).1.getD 0 0) &&& 0x01 ≠
      ((build_I_block_command mask2 cmd2 did2
          (build_I_block_command mask1 cmd1 did1 bn).2).1.getD 0 0) &&& 0x01 := by
  rw [build_head_of_pcb mask1 cmd1 did1 bn h1, build_snd_of_pcb mask1 cmd1 did1 bn h1,
    build_head_of_pcb mask2 cmd2 did2 _ h2]
  by_cases hb : bn = 0 <;> simp [hb]

/-- A concrete run of the C7 theorem: two read-binary encodes in a row from
block number 1 produce header bytes 0x02 and 0x03. -/
theorem sequence_bit_alternates_witness :
    CMD_MASK_READBINARY &&& PCB_NEEDED ≠ 0 ∧
    (((build_I_block_command CMD_MASK_READBINARY test_apdu 0 1).1.getD 0 0) &&& 0x01 ≠
      ((build_I_block_command CMD_MASK_READBINARY test_apdu 0
          (build_I_block_command CMD_MASK_READBINARY test_apdu 0 1).2).1.getD 0 0) &&& 0x01) :=
  ⟨by decide,
    sequence_bit_alternates CMD_MASK_READBINARY CMD_MASK_READBINARY test_apdu test_apdu
      0 0 1 (by decide) (by decide)⟩

/-- An update-binary command whose payload exceeds the 246-byte cap: LC = 247
with a 247-byte payload. -/
def oversize_update_apdu : C_APDU :=
  { header := { CLA := 0x00, INS := 0xD6, P1 := 0x00, P2 := 0x00 },
    body := { LC := 247, data := some (List.replicate 247 0x07), LE := 0 } }

set_option maxRecDepth 20000 in
/-- C8 (counterexample): encoding an update-binary command with a 247-byte
payload does not fail: the codec emits a complete 255-byte frame carrying the
whole payload, contradicting the claim that encoding fails with an
invalid-length error beyond the 246-byte cap. -/
theorem encode_oversize_payload_emitted :
    ((build_I_block_command CMD_MASK_UPDATEBINARY oversize_update_apdu 0 1).1).length = 255 ∧
    (((build_I_block_command CMD_MASK_UPDATEBINARY oversize_update_apdu 0 1).1).drop 6).take 247 =
      List.replicate 247 0x07 := by
  decide

/-- C8 (amended): the codec performs no payload-length validation and cannot
fail: for every update-binary command whose payload exceeds the 246-byte cap
(LC > 246, payload of LC bytes) the emitted frame is complete, its length
being the six framing bytes plus LC payload bytes plus two CRC bytes. -/
theorem encode_oversize_payload_no_failure (command : C_APDU) (did bn : Nat)
    (d : List Nat) (hd : command.body.data = some d)
    (hlen : d.length = command.body.LC) (_h246 : 246 < command.body.LC) :
    ((build_I_block_command CMD_MASK_UPDATEBINARY command did bn).1).length =
      command.body.LC + 8 := by
  have htake : d.take command.body.LC = d := by
    rw [← hlen]
    exact List.take_length d
  have hrep : command.body.LC - d.length = 0 := by omega
  have c1 : CMD_MASK_UPDATEBINARY &&& PCB_NEEDED ≠ 0 := by decide
  have c2 : CMD_MASK_UPDATEBINARY &&& CLA_NEEDED ≠ 0 := by decide
  have c3 : CMD_MASK_UPDATEBINARY &&& INS_NEEDED ≠ 0 := by decide
  have c4 : CMD_MASK_UPDATEBINARY &&& P1_NEEDED ≠ 0 := by decide
  have c5 : CMD_MASK_UPDATEBINARY &&& P2_NEEDED ≠ 0 := by decide
  have c6 : CMD_MASK_UPDATEBINARY &&& LC_NEEDED ≠ 0 := by decide
  have c7 : CMD_MASK_UPDATEBINARY &&& DATA_NEEDED ≠ 0 := by decide
  have c8 : CMD_MASK_UPDATEBINARY &&& LE_NEEDED = 0 := by decide
  have c9 : CMD_MASK_UPDATEBINARY &&& CRC_NEEDED ≠ 0 := by decide
  have e1 : (1 : Nat) &&& DID_NEEDED = 0 := by decide
  have e0 : (0 : Nat) &&& DID_NEEDED = 0 := by decide
  unfold build_I_block_command data_field
  rw [hd]
  by_cases hb : bn = 0 <;>
    simp [c1, c2, c3, c4, c5, c6, c7, c8, c9, e1, e0, hb, htake, hrep, hlen]

set_option maxRecDepth 20000 in
/-- A concrete run of the C8 theorem at LC = 247. -/
theorem encode_oversize_payload_no_failure_witness :
    oversize_update_apdu.body.data = some (List.replicate 247 0x07) ∧
    (List.replicate 247 0x07).length = oversize_update_apdu.body.LC ∧
    246 < oversize_update_apdu.body.LC ∧
    ((build_I_block_command CMD_MASK_UPDATEBINARY oversize_update_apdu 0 1).1).length =
      oversize_update_apdu.body.LC + 8 :=
  ⟨rfl, by decide, by decide,
    encode_oversize_payload_no_failure oversize_update_apdu 0 1
      (List.replicate 247 0x07) rfl (by decide) (by decide)⟩

/-! ## Read and update entry points: length clamping -/

/-- The command M24srDriver::read_binary builds before encoding: the requested
length is clamped to MAX_OPERATION_SIZE, never rejected; the clamped length
goes into LE. LC and the data pointer are unused under CMD_MASK_READBINARY
(the source leaves them uninitialised) and are modelled as 0 and none. -/
def read_binary_command (offset length : Nat) : C_APDU :=
  let len := if length > MAX_OPERATION_SIZE then MAX_OPERATION_SIZE else length
  { header := { CLA := 0x00, INS := 0xB0, P1 := GETMSB offset, P2 := GETLSB offset },
    body := { LC := 0, data := none, LE := len } }

/-- The command M24srDriver::st_read_binary builds: identical to read_binary
except for the vendor class byte 0xA2. -/
def st_read_binary_command (offset length : Nat) : C_APDU :=
  let len := if length > MAX_OPERATION_SIZE then MAX_OPERATION_SIZE else length
  { header := { CLA := 0xA2, INS := 0xB0, P1 := GETMSB offset, P2 := GETLSB offset },
    body := { LC := 0, data := none, LE := len } }

/-- The command M24srDriver::update_binary builds: the requested length is
clamped to MAX_OPERATION_SIZE and goes into LC with the payload pointer; LE
is unused under CMD_MASK_UPDATEBINARY and modelled as 0. -/
def update_binary_command (offset length : Nat) (data : List Nat) : C_APDU :=
  let len := if length > MAX_OPERATION_SIZE then MAX_OPERATION_SIZE else length
  { header := { CLA := 0x00, INS := 0xD6, P1 := GETMSB offset, P2 := GETLSB offset },
    body := { LC := len, data := some data, LE := 0 } }

/-- C10: a requested length above 246 is not rejected by read_binary,
st_read_binary or update_binary: each builds exactly the command it would
build for length 246 and proceeds to encode the same frame. -/
theorem oversized_length_silently_clamped (offset length did bn : Nat)
    (data : List Nat) (h : 246 < length) :
    read_binary_command offset length = read_binary_command offset 246 ∧
    st_read_binary_command offset length = st_read_binary_command offset 246 ∧
    update_binary_command offset length data = update_binary_command offset 246 data ∧
    (build_I_block_command CMD_MASK_READBINARY (read_binary_command offset length) did bn).1 =
      (build_I_block_command CMD_MASK_READBINARY (read_binary_command offset 246) did bn).1 := by
  have h1 : read_binary_command offset length = read_binary_command offset 246 := by
    simp [read_binary_command, MAX_OPERATION_SIZE, h]
  have h2 : st_read_binary_command offset length = st_read_binary_command offset 246 := by
    simp [st_read_binary_command, MAX_OPERATION_SIZE, h]
  have h3 : update_binary_command offset length data = update_binary_command offset 246 data := by
    simp [update_binary_command, MAX_OPERATION_SIZE, h]
  exact ⟨h1, h2, h3, by rw [h1]⟩

/-- A concrete run of the C10 theorem at requested length 250. -/
theorem oversized_length_silently_clamped_witness :
    246 < 250 ∧ read_binary_command 0 250 = read_binary_command 0 246 :=
  ⟨by decide, (oversized_length_silently_clamped 0 250 0 1 [] (by decide)).1⟩

/-! ## Session state machine models -/

/-- The number of bytes of a status response (STATUSRESPONSE_NBBYTE). -/
def STATUSRESPONSE_NBBYTE : Nat := 5

/-- The residue window used for a waiting-time-extension supervisory frame
(WATINGTIMEEXTRESPONSE_NBBYTE). -/
def WATINGTIMEEXTRESPONSE_NBBYTE : Nat := 4

/-- The pending-command tag held in _last_command. -/
inductive Command
  | NONE
  | DESELECT
  | SELECT_APPLICATION
  | SELECT_CC_FILE
  | SELECT_NDEF_FILE
  | SELECT_SYSTEM_FILE
  | READ
  | UPDATE
  | VERIFY
  | CHANGE_REFERENCE_DATA
  | ENABLE_VERIFICATION_REQUIREMENT
  | DISABLE_VERIFICATION_REQUIREMENT
  | ENABLE_PERMANET_STATE
  | DISABLE_PERMANET_STATE
deriving DecidableEq

/-- A completion callback delivered to the driver's listener, tagged with the
callback method and the values it reports. -/
inductive CbEvent
  | on_deselect (status : Nat)
  | on_selected_application (status : Nat)
  | on_selected_ndef_file (status : Nat)
  | on_read_byte (status offset length : Nat)
  | on_updated_binary (status offset length : Nat)
deriving DecidableEq

/-- The outcome of one synchronous driver operation: the request frame handed
to the transport, the returned status, the final _last_command value and the
callbacks delivered, in order. -/
structure OpRun where
  frame : List Nat
  status : Nat
  last_command : Command
  callbacks : List CbEvent
deriving DecidableEq

/-- The deselect request frame (DESELECTREQUEST_COMMAND). -/
def DESELECTREQUEST_COMMAND : List Nat := [0xC2, 0xE0, 0xB4]

/-- Synchronous deselect (M24srDriver::deselect followed by receive_deselect).
Inputs are the outcomes of the transport calls: send_ok for
io_send_i2c_command, recv_ok for io_receive_i2c_response; io_poll_i2c always
returns success in the source (it loops on the bus until acknowledged), so
its failure branch is unreachable. The source reports on_deselect when the
send fails but does not return: it still sets _last_command to DESELECT,
polls and receives, delivering on_deselect a second time from
receive_deselect, which never resets _last_command. -/
def deselect_sync (send_ok recv_ok : Bool) : OpRun :=
  let send_status := if send_ok then M24SR_SUCCESS else M24SR_IO_ERROR_I2CTIMEOUT
  let cbs0 : List CbEvent := if send_ok then [] else [CbEvent.on_deselect send_status]
  let recv_status := if recv_ok then M24SR_SUCCESS else M24SR_IO_ERROR_I2CTIMEOUT
  { frame := DESELECTREQUEST_COMMAND,
    status := recv_status,
    last_command := Command.DESELECT,
    callbacks := cbs0 ++ [CbEvent.on_deselect recv_status] }

/-- Synchronous select_ndef_file (M24srDriver::select_ndef_file followed by
receive_select_ndef_file). last_command0 is the _last_command value at entry,
send_ok the outcome of the send, recv the received 5-byte buffer (none models
a receive transport failure). On a failed send the source returns the
transport status directly: no callback is delivered and _last_command is left
untouched. Otherwise _last_command becomes SELECT_NDEF_FILE, the poll
succeeds, and receive_select_ndef_file resets _last_command to NONE,
validates the buffer and reports on_selected_ndef_file exactly once. LE is
unused under CMD_MASK_SELECTNDEFFILE (the source leaves it uninitialised) and
is modelled as 0. -/
def select_ndef_file_sync (ndef_file_id did block_number : Nat)
    (last_command0 : Command) (send_ok : Bool) (recv : Option (List Nat)) : OpRun :=
  let command : C_APDU :=
    { header := { CLA := 0x00, INS := 0xA4, P1 := GETMSB 0x000C, P2 := GETLSB 0x000C },
      body := { LC := 2, data := some [GETMSB ndef_file_id, GETLSB ndef_file_id], LE := 0 } }
  let frame := (build_I_block_command CMD_MASK_SELECTNDEFFILE command did block_number).1
  if send_ok then
    match recv with
    | none =>
        { frame := frame, status := M24SR_IO_ERROR_I2CTIMEOUT, last_command := Command.NONE,
          callbacks := [CbEvent.on_selected_ndef_file M24SR_IO_ERROR_I2CTIMEOUT] }
    | some data_in =>
        let status := is_correct_crc_residue data_in STATUSRESPONSE_NBBYTE
        { frame := frame, status := status, last_command := Command.NONE,
          callbacks := [CbEvent.on_selected_ndef_file status] }
  else
    { frame := frame, status := M24SR_IO_ERROR_I2CTIMEOUT, last_command := last_command0,
      callbacks := [] }

/-- C5 (code bug): a deselect whose request transmit fails does not abort: the
source still records DESELECT as the pending command, proceeds to poll and
receive, and returns the follow-on receive status (success here), so the
failed transmit leaves pending-command state behind instead of resetting the
session to idle. -/
theorem deselect_send_failure_leaves_pending :
    (deselect_sync false true).last_command = Command.DESELECT ∧
    (deselect_sync false true).status = M24SR_SUCCESS ∧
    (deselect_sync false true).callbacks =
      [CbEvent.on_deselect M24SR_IO_ERROR_I2CTIMEOUT, CbEvent.on_deselect M24SR_SUCCESS] := by
  decide

/-- C6 (code bug): completion callbacks are not delivered exactly once per
issued command: a select-NDEF-file command whose request transmit fails
delivers no callback at all, while a deselect whose request transmit fails
delivers on_deselect twice. -/
theorem callback_exactly_once_violated :
    (select_ndef_file_sync 0x0001 0x00 1 Command.NONE false none).callbacks = [] ∧
    (deselect_sync false true).callbacks.length = 2 := by
  decide

/-! ## Frame-waiting-time extension sub-protocol -/

/-- The supervisory acknowledgement frame built by
M24srDriver::send_fwt_extension: the byte 0xF2, the FWT byte, then the CRC16
of those two bytes appended low byte first. The C buffer is declared with
five bytes (STATUSRESPONSE_NBBYTE) but only these length = 4 bytes are filled
and handed to io_send_i2c_command. -/
def fwt_ack_frame (fwt_byte : Nat) : List Nat :=
  let crc16 := compute_crc [0xF2, fwt_byte]
  [0xF2, fwt_byte, GETLSB crc16, GETMSB crc16]

/-- The is_S_block test of the source: the top two bits (MASK_BLOCK) of the
PCB byte equal MASK_SBLOCK. -/
def is_S_block (buffer : List Nat) : Bool := buffer.getD 0 0 &&& 0xC0 == 0xC0

/-- The receive step of an update-binary exchange in synchronous mode
(receive_update_binary together with send_fwt_extension). offset and length
are the recorded _last_command_data fields reported in the callbacks. The
first list holds the outcomes of the successive io_receive_i2c_response calls
(none models a transport failure, some a received buffer; an exhausted list
is a transport failure as well); the second the outcomes of the
io_send_i2c_command calls made for the supervisory acknowledgements. The
result is the final status, the acknowledgement frames actually transmitted
and the callbacks delivered. The source re-enters receive_update_binary
through send_fwt_extension after each transmitted acknowledgement, and when
that re-entered receive returns a non-success status the outer call reports
on_updated_binary once more. An S-block whose 4-byte residue check yields the
CRC error falls through without any callback; io_poll_i2c never fails, so the
poll-failure branch of send_fwt_extension is unreachable. -/
def receive_update_binary_go (offset length : Nat) :
    List (Option (List Nat)) → List Bool → Nat × List (List Nat) × List CbEvent
  | [], _ =>
      (M24SR_IO_ERROR_I2CTIMEOUT, [],
        [CbEvent.on_updated_binary M24SR_IO_ERROR_I2CTIMEOUT offset length])
  | none :: _, _ =>
      (M24SR_IO_ERROR_I2CTIMEOUT, [],
        [CbEvent.on_updated_binary M24SR_IO_ERROR_I2CTIMEOUT offset length])
  | some response :: rest, sends =>
      if is_S_block response then
        let status := is_correct_crc_residue response WATINGTIMEEXTRESPONSE_NBBYTE
        if status ≠ M24SR_IO_ERROR_CRC then
          let ack := fwt_ack_frame (response.getD 1 0)
          if sends.headD true then
            let r := receive_update_binary_go offset length rest (sends.drop 1)
            if r.1 ≠ M24SR_SUCCESS then
              (r.1, ack :: r.2.1, r.2.2 ++ [CbEvent.on_updated_binary r.1 offset length])
            else
              (r.1, ack :: r.2.1, r.2.2)
          else
            (M24SR_IO_ERROR_I2CTIMEOUT, [],
              [CbEvent.on_updated_binary M24SR_IO_ERROR_I2CTIMEOUT offset length])
        else
          (status, [], [])
      else
        let status := is_correct_crc_residue response STATUSRESPONSE_NBBYTE
        (status, [], [CbEvent.on_updated_binary status offset length])

/-- C4 (counterexample): the supervisory acknowledgement frame transmitted by
send_fwt_extension holds four bytes, not five. -/
theorem fwt_ack_frame_is_four_bytes :
    (fwt_ack_frame 0x01).length = 4 ∧ ¬ ((fwt_ack_frame 0x01).length = 5) := by
  decide

/-- C4 (amended): when the expected application response classifies as a
supervisory wait-time-extension request (an S-block whose 4-byte residue
check does not yield the CRC error) and the acknowledgement send succeeds,
the engine transmits exactly the 4-byte supervisory acknowledgement frame
{0xF2, fwt_byte, crcLow, crcHigh} (CRC computed over the first two bytes,
appended low byte first) and re-issues the receive step on the remaining
transport outcomes before any result reaches the response validator. -/
theorem fwt_extension_ack_and_reissue (response : List Nat)
    (rest : List (Option (List Nat))) (sends : List Bool) (offset length : Nat)
    (hs : is_S_block response = true)
    (hr : is_correct_crc_residue response WATINGTIMEEXTRESPONSE_NBBYTE ≠ M24SR_IO_ERROR_CRC) :
    fwt_ack_frame (response.getD 1 0) =
      [0xF2, response.getD 1 0, GETLSB (compute_crc [0xF2, response.getD 1 0]),
        GETMSB (compute_crc [0xF2, response.getD 1 0])] ∧
    (fwt_ack_frame (response.getD 1 0)).length = 4 ∧
    (receive_update_binary_go offset length (some response :: rest) (true :: sends)).2.1 =
      fwt_ack_frame (response.getD 1 0) ::
        (receive_update_binary_go offset length rest sends).2.1 := by
  refine ⟨rfl, rfl, ?_⟩
  simp only [receive_update_binary_go, hs, if_true, hr, List.headD, List.drop]
  by_cases hfin : (receive_update_binary_go offset length rest sends).1 ≠ M24SR_SUCCESS <;>
    simp [hfin, hr]

/-- A concrete supervisory wait-time-extension request: the four bytes
0xF2 0x01 crcLow crcHigh followed by one padding byte, as received into the
5-byte response buffer. -/
def fwt_request_example : List Nat := fwt_ack_frame 0x01 ++ [0x00]

/-- A concrete run of the C4 theorem on a wait-time-extension request with
FWT byte 0x01. -/
theorem fwt_extension_ack_and_reissue_witness :
    is_S_block fwt_request_example = true ∧
    is_correct_crc_residue fwt_request_example WATINGTIMEEXTRESPONSE_NBBYTE ≠
      M24SR_IO_ERROR_CRC ∧
    (receive_update_binary_go 0 0 [some fwt_request_example] [true]).2.1 =
      fwt_ack_frame (fwt_request_example.getD 1 0) ::
        (receive_update_binary_go 0 0 [] []).2.1 :=
  ⟨by decide, by decide,
    (fwt_extension_ack_and_reissue fwt_request_example [] [] 0 0
      (by decide) (by decide)).2.2⟩

/-! ## Read-binary receive path -/

/-- The receive step of a read-binary exchange (receive_read_binary). offset,
length and caller_buffer are the recorded _last_command_data fields (the
caller's destination buffer and the registered read length); recv is none on
a receive transport failure and some raw for the received length + 5 byte
buffer. The payload bytes raw[1 .. length] overwrite the first length bytes
of the caller's buffer only when validation succeeds. -/
def receive_read_binary (recv : Option (List Nat)) (offset length : Nat)
    (caller_buffer : List Nat) : Nat × List Nat × List CbEvent :=
  match recv with
  | none =>
      (M24SR_IO_ERROR_I2CTIMEOUT, caller_buffer,
        [CbEvent.on_read_byte M24SR_IO_ERROR_I2CTIMEOUT offset length])
  | some raw =>
      let status := is_correct_crc_residue raw (length + STATUSRESPONSE_NBBYTE)
      if status ≠ M24SR_SUCCESS then
        (status, caller_buffer, [CbEvent.on_read_byte status offset length])
      else
        (status, (raw.drop 1).take length ++ caller_buffer.drop length,
          [CbEvent.on_read_byte status offset length])

/-- C9: a read-binary receive whose response fails CRC validation leaves the
caller's destination buffer unmodified, and the payload is copied into the
caller's buffer only when validation succeeds: whenever the buffer changed at
all, the status is the success code. -/
theorem read_crc_failure_buffer_unmodified (recv : Option (List Nat))
    (offset length : Nat) (caller_buffer : List Nat) :
    ((receive_read_binary recv offset length caller_buffer).1 = M24SR_IO_ERROR_CRC →
      (receive_read_binary recv offset length caller_buffer).2.1 = caller_buffer) ∧
    ((receive_read_binary recv offset length caller_buffer).2.1 ≠ caller_buffer →
      (receive_read_binary recv offset length caller_buffer).1 = M24SR_SUCCESS) := by
  cases recv with
  | none => exact ⟨fun _ => rfl, fun hne => absurd rfl hne⟩
  | some raw =>
    by_cases hst : is_correct_crc_residue raw (length + STATUSRESPONSE_NBBYTE) ≠ M24SR_SUCCESS
    · constructor
      · intro _
        simp [receive_read_binary, hst]
      · intro hne
        exact absurd (by simp [receive_read_binary, hst]) hne
    · push_neg at hst
      constructor
      · intro hcrc
        rw [show (receive_read_binary (some raw) offset length caller_buffer).1 =
            is_correct_crc_residue raw (length + STATUSRESPONSE_NBBYTE) from by
          simp [receive_read_binary, hst]] at hcrc
        rw [hst] at hcrc
        exact absurd hcrc (by unfold M24SR_SUCCESS M24SR_IO_ERROR_CRC; omega)
      · intro _
        simp [receive_read_binary, hst]

/-- A concrete run of the C9 theorem: a seven-byte response with a corrupted
CRC yields the CRC error and leaves the caller buffer [9, 9] untouched. -/
theorem read_crc_failure_buffer_unmodified_witness :
    (receive_read_binary (some [1, 2, 3, 4, 5, 6, 7]) 0 2 [9, 9]).1 = M24SR_IO_ERROR_CRC ∧
    (receive_read_binary (some [1, 2, 3, 4, 5, 6, 7]) 0 2 [9, 9]).2.1 = [9, 9] :=
  ⟨by decide,
    (read_crc_failure_buffer_unmodified (some [1, 2, 3, 4, 5, 6, 7]) 0 2 [9, 9]).1 (by decide)⟩

end M24SR
